import Mathlib

/-!
Shallow embedding of `src/util/token.rs` from the crates.io repository:
API-token generation, hashing, parsing and the storage-column codec.

Bytes are modelled as `Nat` values (< 256 on well-formed data), byte strings
as `List Nat`, and 32-bit machine words as `Nat` reduced modulo `2 ^ 32`.
-/

/-! ## SHA-256 (embedding of the sha2 crate's `Sha256::digest`, FIPS 180-4) -/

/-- Truncate to a 32-bit machine word. -/
def u32mask (n : Nat) : Nat := n % 2 ^ 32

/-- 32-bit right rotation. -/
def rotr32 (x n : Nat) : Nat := u32mask ((x >>> n) ||| (x <<< (32 - n)))

/-- SHA-256 upper-case sigma 0 (applied to the working variable `a`). -/
def sigBig0 (x : Nat) : Nat := (rotr32 x 2 ^^^ rotr32 x 13) ^^^ rotr32 x 22

/-- SHA-256 upper-case sigma 1 (applied to the working variable `e`). -/
def sigBig1 (x : Nat) : Nat := (rotr32 x 6 ^^^ rotr32 x 11) ^^^ rotr32 x 25

/-- SHA-256 lower-case sigma 0 (message schedule). -/
def sigSmall0 (x : Nat) : Nat := (rotr32 x 7 ^^^ rotr32 x 18) ^^^ (x >>> 3)

/-- SHA-256 lower-case sigma 1 (message schedule). -/
def sigSmall1 (x : Nat) : Nat := (rotr32 x 17 ^^^ rotr32 x 19) ^^^ (x >>> 10)

/-- The 64 SHA-256 round constants (fractional parts of the cube roots of
the first 64 primes, FIPS 180-4 section 4.2.2), written in decimal. -/
def sha256K : List Nat :=
  [1116352408, 1899447441, 3049323471, 3921009573, 961987163,
   1508970993, 2453635748, 2870763221, 3624381080, 310598401,
   607225278, 1426881987, 1925078388, 2162078206, 2614888103,
   3248222580, 3835390401, 4022224774, 264347078, 604807628,
   770255983, 1249150122, 1555081692, 1996064986, 2554220882,
   2821834349, 2952996808, 3210313671, 3336571891, 3584528711,
   113926993, 338241895, 666307205, 773529912, 1294757372,
   1396182291, 1695183700, 1986661051, 2177026350, 2456956037,
   2730485921, 2820302411, 3259730800, 3345764771, 3516065817,
   3600352804, 4094571909, 275423344, 430227734, 506948616,
   659060556, 883997877, 958139571, 1322822218, 1537002063,
   1747873779, 1955562222, 2024104815, 2227730452, 2361852424,
   2428436474, 2756734187, 3204031479, 3329325298]

/-- The eight 32-bit working variables of the SHA-256 compression function. -/
structure Sha256State where
  a : Nat
  b : Nat
  c : Nat
  d : Nat
  e : Nat
  f : Nat
  g : Nat
  h : Nat

/-- Initial SHA-256 hash value (fractional parts of the square roots of the
first 8 primes, FIPS 180-4 section 5.3.3), written in decimal. -/
def sha256Init : Sha256State :=
  ⟨1779033703, 3144134277, 1013904242, 2773480762,
   1359893119, 2600822924, 528734635, 1541459225⟩

/-- One SHA-256 round: consumes one round constant paired with one schedule word. -/
def sha256Round (s : Sha256State) (kw : Nat × Nat) : Sha256State :=
  let ch := (s.e &&& s.f) ^^^ ((s.e ^^^ 0xffffffff) &&& s.g)
  let t1 := u32mask (s.h + sigBig1 s.e + ch + kw.1 + kw.2)
  let maj := (s.a &&& s.b) ^^^ (s.a &&& s.c) ^^^ (s.b &&& s.c)
  let t2 := u32mask (sigBig0 s.a + maj)
  ⟨u32mask (t1 + t2), s.a, s.b, s.c, u32mask (s.d + t1), s.e, s.f, s.g⟩

/-- Append the next message-schedule word to a schedule of length at least 16. -/
def schedStep (ws : List Nat) : List Nat :=
  let n := ws.length
  ws ++ [u32mask (ws.getD (n - 16) 0 + sigSmall0 (ws.getD (n - 15) 0) +
                  ws.getD (n - 7) 0 + sigSmall1 (ws.getD (n - 2) 0))]

/-- Extend the 16 block words to the full 64-word message schedule. -/
def schedule (ws : List Nat) : List Nat := schedStep^[48] ws

/-- Pack bytes into 32-bit big-endian words, four bytes per word. -/
def bytesToWords : List Nat → List Nat
  | b0 :: b1 :: b2 :: b3 :: rest =>
      ((b0 <<< 24) ||| (b1 <<< 16) ||| (b2 <<< 8) ||| b3) :: bytesToWords rest
  | _ => []

/-- Process one 64-byte block with the SHA-256 compression function. -/
def sha256Compress (s : Sha256State) (block : List Nat) : Sha256State :=
  let t := (sha256K.zip (schedule (bytesToWords block))).foldl sha256Round s
  ⟨u32mask (s.a + t.a), u32mask (s.b + t.b), u32mask (s.c + t.c), u32mask (s.d + t.d),
   u32mask (s.e + t.e), u32mask (s.f + t.f), u32mask (s.g + t.g), u32mask (s.h + t.h)⟩

/-- Split a byte string into 64-byte chunks. -/
def chunks64 : List Nat → List (List Nat)
  | [] => []
  | x :: xs => ((x :: xs).take 64) :: chunks64 ((x :: xs).drop 64)
termination_by l => l.length
decreasing_by simp [List.length_drop]; omega

/-- The low 64 bits of a number as eight big-endian bytes. -/
def lenBytes64 (n : Nat) : List Nat :=
  [(n >>> 56) % 256, (n >>> 48) % 256, (n >>> 40) % 256, (n >>> 32) % 256,
   (n >>> 24) % 256, (n >>> 16) % 256, (n >>> 8) % 256, n % 256]

/-- SHA-256 padding: a 0x80 byte, zeros to 56 mod 64, then the bit length. -/
def padMessage (msg : List Nat) : List Nat :=
  msg ++ [0x80] ++ List.replicate ((119 - msg.length % 64) % 64) 0 ++ lenBytes64 (8 * msg.length)

/-- A 32-bit word as four big-endian bytes. -/
def wordBytes (w : Nat) : List Nat :=
  [(w >>> 24) % 256, (w >>> 16) % 256, (w >>> 8) % 256, w % 256]

/-- Serialize the final hash state as the 32-byte digest. -/
def Sha256State.bytes (s : Sha256State) : List Nat :=
  wordBytes s.a ++ wordBytes s.b ++ wordBytes s.c ++ wordBytes s.d ++
  wordBytes s.e ++ wordBytes s.f ++ wordBytes s.g ++ wordBytes s.h

namespace Sha256

/-- `Sha256::digest`: the SHA-256 digest of a byte string. -/
def digest (msg : List Nat) : List Nat :=
  ((chunks64 (padMessage msg)).foldl sha256Compress sha256Init).bytes

end Sha256

/-! ## UTF-8 encoding (embedding of Rust's `str::as_bytes`) -/

/-- The UTF-8 byte sequence of one character. -/
def charUtf8 (c : Char) : List Nat :=
  let n := c.toNat
  if n < 0x80 then [n]
  else if n < 0x800 then [0xc0 ||| (n >>> 6), 0x80 ||| (n &&& 0x3f)]
  else if n < 0x10000 then
    [0xe0 ||| (n >>> 12), 0x80 ||| ((n >>> 6) &&& 0x3f), 0x80 ||| (n &&& 0x3f)]
  else
    [0xf0 ||| (n >>> 18), 0x80 ||| ((n >>> 12) &&& 0x3f),
     0x80 ||| ((n >>> 6) &&& 0x3f), 0x80 ||| (n &&& 0x3f)]

/-- Rust's `str::as_bytes`: the UTF-8 bytes of a string. -/
def strAsBytes (s : String) : List Nat := (s.data.map charUtf8).flatten

/-- Rust's `str::starts_with` with a string pattern: byte-level prefix test,
which for valid UTF-8 coincides with the character-sequence prefix test. -/
def starts_with (s pat : String) : Bool := pat.data.isPrefixOf s.data

/-! ## `src/util/token.rs` -/

/-- `const TOKEN_LENGTH: usize = 32`. -/
def TOKEN_LENGTH : Nat := 32

/-- `const TOKEN_PREFIX: &str = "cio"` — never changed for existing tokens. -/
def TOKEN_PREFIX : String := "cio"

/-- `pub struct HashedToken { sha256: Vec<u8> }`. -/
structure HashedToken where
  sha256 : List Nat

/-- `HashedToken::hash`: SHA-256 digest of the plaintext bytes
(`Sha256::digest(plaintext.as_bytes()).as_slice().to_vec()`). -/
def HashedToken.hash (plaintext : String) : List Nat :=
  Sha256.digest (strAsBytes plaintext)

/-- `HashedToken::parse`: reject anything not starting with the token
prefix, otherwise hash the full plaintext. -/
def HashedToken.parse (plaintext : String) : Option HashedToken :=
  if !(starts_with plaintext TOKEN_PREFIX) then none
  else some { sha256 := HashedToken.hash plaintext }

/-- `impl Debug for HashedToken`: writes the fixed string `"HashedToken"`. -/
def HashedToken.debugFmt (_ : HashedToken) : String := "HashedToken"

/-- diesel's `FromSql<Bytea, Pg> for Vec<u8>`: yields the raw column bytes
unchanged; it cannot fail on a `Bytea` value. -/
def vecU8FromSql (bytes : List Nat) : Except String (List Nat) := Except.ok bytes

/-- `impl ToSql<Bytea, Pg> for HashedToken`: writes the digest bytes as-is
(delegates to the `Vec<u8>` impl on `self.sha256`). -/
def HashedToken.to_sql (t : HashedToken) : List Nat := t.sha256

/-- `impl FromSql<Bytea, Pg> for HashedToken`:
`Ok(Self { sha256: FromSql::from_sql(bytes)? })`. -/
def HashedToken.from_sql (bytes : List Nat) : Except String HashedToken :=
  match vecU8FromSql bytes with
  | Except.ok v => Except.ok { sha256 := v }
  | Except.error e => Except.error e

/-- `const CHARS: &[u8]` — the 62-symbol alphanumeric alphabet, as bytes. -/
def CHARS : List Nat :=
  "abcdefghijklmnopqrstuvwxyzABCDEFGHIJKLMNOPQRSTUVWXYZ0123456789".data.map Char.toNat

/-- `Uniform::from(0..bound)` applied to one raw draw from `OsRng`: a sample
in `[0, bound)`. The distribution's support is what matters for the
embedding; the raw entropy stream is a parameter. -/
def uniformIndex (bound : Nat) (raw : Nat) : Nat := raw % bound

/-- `generate_secure_alphanumeric_string`: maps each sampled index into
`CHARS`, collecting `len` characters. `r` is the stream of raw draws taken
from `OsRng`. -/
def generate_secure_alphanumeric_string (r : Nat → Nat) (len : Nat) : String :=
  ⟨(List.range len).map fun i => Char.ofNat (CHARS.getD (uniformIndex CHARS.length (r i)) 0)⟩

/-- `pub(crate) struct NewSecureToken { plaintext: String }`. -/
structure NewSecureToken where
  plaintext : String

/-- `NewSecureToken::generate`: prefix followed by a 32-character random
alphanumeric suffix. `r` is the stream of raw draws taken from `OsRng`. -/
def NewSecureToken.generate (r : Nat → Nat) : NewSecureToken :=
  { plaintext := TOKEN_PREFIX ++ generate_secure_alphanumeric_string r TOKEN_LENGTH }

/-- `NewSecureToken::hashed`: the hashed form of the held plaintext. -/
def NewSecureToken.hashed (t : NewSecureToken) : HashedToken :=
  { sha256 := HashedToken.hash t.plaintext }

/-! ## Helper lemmas -/

theorem string_data_append (a b : String) : (a ++ b).data = a.data ++ b.data := rfl

theorem string_data_mk (l : List Char) : (String.mk l).data = l := rfl

theorem starts_with_append (p s : String) : starts_with (p ++ s) p = true := by
  simp [starts_with, string_data_append]

theorem sha256State_bytes_length (s : Sha256State) : s.bytes.length = 32 := rfl

theorem sha256_digest_length (msg : List Nat) : (Sha256.digest msg).length = 32 := rfl

theorem CHARS_spec : CHARS.length = 62 ∧ CHARS.Nodup ∧
    ∀ m ∈ CHARS, (97 ≤ m ∧ m ≤ 122) ∨ (65 ≤ m ∧ m ≤ 90) ∨ (48 ≤ m ∧ m ≤ 57) := by
  decide

theorem ofNat_toNat_CHARS : ∀ m ∈ CHARS, (Char.ofNat m).toNat = m := by decide

theorem CHARS_getD_mem (i : Nat) (h : i < CHARS.length) : CHARS.getD i 0 ∈ CHARS := by
  simp [List.getD_eq_getElem?_getD, List.getElem?_eq_getElem h]

theorem gen_char_mem (r : Nat → Nat) (len : Nat) :
    ∀ c ∈ (generate_secure_alphanumeric_string r len).data, c.toNat ∈ CHARS := by
  intro c hc
  simp only [generate_secure_alphanumeric_string, string_data_mk, List.mem_map] at hc
  obtain ⟨i, _, rfl⟩ := hc
  have hidx : uniformIndex CHARS.length (r i) < CHARS.length :=
    Nat.mod_lt _ (by decide)
  have hmem := CHARS_getD_mem _ hidx
  rw [ofNat_toNat_CHARS _ hmem]
  exact hmem

/-! ## Claims -/

/-- C1 (counterexample): decoding a 31-byte column value does not fail — it
succeeds and wraps the bytes, refuting the claim that any width other than
32 yields a malformed-data error. -/
theorem C1_counterexample :
    (List.replicate 31 (0 : Nat)).length ≠ 32 ∧
    HashedToken.from_sql (List.replicate 31 0) =
      Except.ok { sha256 := List.replicate 31 0 } :=
  ⟨by decide, rfl⟩

/-- C1 (amended): `from_sql` performs no length validation at all — decoding
any byte sequence, of any width, succeeds and wraps the raw bytes unchanged. -/
theorem C1_from_sql_always_ok (bytes : List Nat) :
    HashedToken.from_sql bytes = Except.ok { sha256 := bytes } := rfl

/-- C2: for every string that does not start with the token prefix,
`HashedToken::parse` returns `none`. -/
theorem C2_parse_rejects_nonprefixed (p : String)
    (h : starts_with p TOKEN_PREFIX = false) : HashedToken.parse p = none := by
  simp [HashedToken.parse, h]

/-- C2 witness: `parse "nokind"` is `none`. -/
theorem C2_witness : starts_with "nokind" TOKEN_PREFIX = false ∧
    HashedToken.parse "nokind" = none :=
  ⟨by decide, C2_parse_rejects_nonprefixed "nokind" (by decide)⟩

/-- C3: for every string starting with the token prefix, `parse` returns
`some` of a token whose digest is the SHA-256 of the full string. -/
theorem C3_parse_hashes_full_string (p : String)
    (h : starts_with p TOKEN_PREFIX = true) :
    HashedToken.parse p = some { sha256 := Sha256.digest (strAsBytes p) } := by
  simp [HashedToken.parse, h, HashedToken.hash]

/-- C3 witness: `parse "cioabc"` yields the SHA-256 digest of `"cioabc"`. -/
theorem C3_witness : starts_with "cioabc" TOKEN_PREFIX = true ∧
    HashedToken.parse "cioabc" =
      some { sha256 := Sha256.digest (strAsBytes "cioabc") } :=
  ⟨by decide, C3_parse_hashes_full_string "cioabc" (by decide)⟩

/-- C4: parsing a freshly generated token's plaintext succeeds, and the
resulting digest equals both `hash(plaintext)` and the issuance-time
digest `hashed()`. -/
theorem C4_roundtrip_hash_agreement (r : Nat → Nat) :
    HashedToken.parse (NewSecureToken.generate r).plaintext =
      some ((NewSecureToken.generate r).hashed) ∧
    ((NewSecureToken.generate r).hashed).sha256 =
      HashedToken.hash (NewSecureToken.generate r).plaintext :=
  ⟨rfl, rfl⟩

/-- C5: every generated plaintext starts with the prefix and has total
length `prefix_length + 32`; every suffix character comes from the 62-symbol
alphanumeric alphabet (which has no duplicates, so a uniform index sample
yields a uniform symbol). -/
theorem C5_generation_shape (r : Nat → Nat) :
    starts_with (NewSecureToken.generate r).plaintext TOKEN_PREFIX = true ∧
    (NewSecureToken.generate r).plaintext.length = TOKEN_PREFIX.length + 32 ∧
    (∀ c ∈ (generate_secure_alphanumeric_string r TOKEN_LENGTH).data,
      c.toNat ∈ CHARS) ∧
    CHARS.length = 62 ∧ CHARS.Nodup :=
  ⟨rfl, rfl, gen_char_mem r TOKEN_LENGTH, CHARS_spec.1, CHARS_spec.2.1⟩

/-- C6: `HashedToken::hash` is deterministic and always produces exactly
32 bytes, for every input including the empty string. -/
theorem C6_hash_deterministic_32_bytes (p : String) :
    HashedToken.hash p = HashedToken.hash p ∧ (HashedToken.hash p).length = 32 :=
  ⟨rfl, sha256_digest_length (strAsBytes p)⟩

/-- C7: the Debug rendering of a `HashedToken` is the fixed string
`"HashedToken"`, identical for any two tokens regardless of their digests. -/
theorem C7_debug_constant (t1 t2 : HashedToken) :
    HashedToken.debugFmt t1 = "HashedToken" ∧
    HashedToken.debugFmt t1 = HashedToken.debugFmt t2 :=
  ⟨rfl, rfl⟩

/-- C8: `to_sql` writes the digest bytes as-is and `from_sql` wraps the raw
column bytes, so encode followed by decode is the identity on tokens. -/
theorem C8_sql_roundtrip (t : HashedToken) :
    HashedToken.to_sql t = t.sha256 ∧
    HashedToken.from_sql (HashedToken.to_sql t) = Except.ok t :=
  ⟨rfl, rfl⟩

/-- C9: `parse` performs no length validation: every string starting with
the prefix — the bare prefix included — parses to `some`. -/
theorem C9_parse_no_length_check (p : String)
    (h : starts_with p TOKEN_PREFIX = true) :
    (HashedToken.parse p).isSome = true := by
  simp [HashedToken.parse, h]

/-- C9 witness: the bare prefix `"cio"` (length 3, not `prefix_length + 32`)
parses to `some`. -/
theorem C9_witness : starts_with "cio" TOKEN_PREFIX = true ∧
    (HashedToken.parse "cio").isSome = true :=
  ⟨by decide, C9_parse_no_length_check "cio" (by decide)⟩

/-- C10: every sampled index is in bounds for `CHARS` (so the indexing never
panics) and string generation is total, producing exactly `len` characters
for every requested length, including 0. -/
theorem C10_index_in_bounds (r : Nat → Nat) (i len : Nat) :
    uniformIndex CHARS.length (r i) < CHARS.length ∧
    (CHARS[uniformIndex CHARS.length (r i)]?).isSome = true ∧
    (generate_secure_alphanumeric_string r len).length = len := by
  have hidx : uniformIndex CHARS.length (r i) < CHARS.length :=
    Nat.mod_lt _ (by decide)
  refine ⟨hidx, ?_, ?_⟩
  · simp [List.getElem?_eq_getElem hidx]
  · simp [generate_secure_alphanumeric_string, String.length]
